import Mathlib

/-!
Verification development for the triphita-blog-dashboard storage and API layer.

The TypeScript sources embedded here are:
* src/shared/schema.ts   — the Zod validators insertBlogPostSchema / updateBlogPostSchema;
* src/server/storage.ts  — MemStorage (JavaScript Map based) and MySQLStorage (Drizzle
  ORM over a MySQL table) implementations of the IStorage interface;
* src/server/routes.ts   — the GET /api/blog-posts handler's filter pipeline.

Modelling conventions:
* JavaScript Date values are represented by a structure carrying the epoch time
  (getTime), the calendar year (getFullYear) and the 0-based month (getMonth);
  the code never needs any relation between the two views, so they are independent
  fields.  The conversion new Date(string) applied to user-supplied publish dates
  is an arbitrary function passed explicitly as a parameter named dparse.
* A JavaScript Map is an insertion-ordered association list: set on a fresh key
  appends, set on a present key updates in place, values() iterates in order.
* A value of type string | null | undefined is Option (Option String):
  none = absent (undefined), some none = null, some (some s) = the string s.
* JSON request bodies are modelled by the Json inductive below, restricted to the
  shapes the validators distinguish.
-/

/-- JavaScript truthiness of a string: every string except the empty one. -/
def strTruthy (s : String) : Bool := !(s == "")

/-- Decides whether the list pat is a prefix of the list s, character by character. -/
def listPrefixOf : List Char → List Char → Bool
  | [], _ => true
  | _ :: _, [] => false
  | a :: as, b :: bs => a == b && listPrefixOf as bs

/-- Decides whether pat occurs as a contiguous sublist of s. -/
def listSubstr (pat : List Char) : List Char → Bool
  | [] => listPrefixOf pat []
  | c :: rest => listPrefixOf pat (c :: rest) || listSubstr pat rest

/-- Models JavaScript s.includes(pat): pat occurs as a substring of s. -/
def strIncludes (s pat : String) : Bool := listSubstr pat.data s.data

/-- Models JavaScript s.toLowerCase(), written over the character list so that
it evaluates by kernel reduction. -/
def jsToLower (s : String) : String := String.mk (s.data.map Char.toLower)

/-- Model of a JavaScript Date: epoch milliseconds together with the calendar
year and 0-based month that getFullYear / getMonth would report. -/
structure DateVal where
  time : Int
  year : Int
  month : Nat
deriving DecidableEq

/-- Conversion from the ISO date strings accepted by the validators to dates,
i.e. the behaviour of new Date(string); kept abstract as a parameter. -/
def DateParse := String → DateVal

/-- JSON values, restricted to the shapes the two validators distinguish
(strings, numbers, booleans, null, and arrays of strings — the only array
shape any claim exercises). -/
inductive Json where
  | str (s : String)
  | num (n : Int)
  | boolVal (b : Bool)
  | null
  | arr (xs : List String)
deriving DecidableEq

/-- User record as stored (users table / MemStorage users map). -/
structure User where
  id : Nat
  username : String
  password : String
deriving DecidableEq

/-- Validated user-creation payload (insertUserSchema output). -/
structure InsertUser where
  username : String
  password : String
deriving DecidableEq

/-- Blog post record as stored in either backend.  createdAt and updatedAt are
always set by the code paths modelled, hence non-optional. -/
structure BlogPost where
  id : Nat
  title : String
  content : String
  excerpt : Option String
  category : Option String
  status : String
  featuredImage : Option String
  metaDescription : Option String
  tags : Option (List String)
  publishDate : Option DateVal
  createdAt : DateVal
  updatedAt : DateVal
deriving DecidableEq

/-- Output shape of getBlogPostStats. -/
structure BlogPostStats where
  totalPosts : Nat
  publishedPosts : Nat
  draftPosts : Nat
  monthlyPosts : Nat
deriving DecidableEq

/-- Validated create payload: the output type of insertBlogPostSchema.parse.
title, content and status are always present in the parse output (status via
its default); the optional fields keep the string | null | undefined shape. -/
structure InsertBlogPost where
  title : String
  content : String
  excerpt : Option (Option String)
  category : Option (Option String)
  status : String
  featuredImage : Option (Option String)
  metaDescription : Option (Option String)
  tags : Option (Option (List String))
  publishDate : Option (Option String)
deriving DecidableEq

/-- Validated update payload: the output type of updateBlogPostSchema.parse,
where every field may additionally be absent. -/
structure UpdateBlogPost where
  title : Option String
  content : Option String
  excerpt : Option (Option String)
  category : Option (Option String)
  status : Option String
  featuredImage : Option (Option String)
  metaDescription : Option (Option String)
  tags : Option (Option (List String))
  publishDate : Option (Option String)
deriving DecidableEq

/-- The empty partial update object {}. -/
def emptyUpdate : UpdateBlogPost :=
  { title := none, content := none, excerpt := none, category := none,
    status := none, featuredImage := none, metaDescription := none,
    tags := none, publishDate := none }

/-- Raw JSON request body for the blog-post validators: each key either absent
or mapped to a JSON value. -/
structure RawPayload where
  title : Option Json
  content : Option Json
  excerpt : Option Json
  category : Option Json
  status : Option Json
  featuredImage : Option Json
  metaDescription : Option Json
  tags : Option Json
  publishDate : Option Json
deriving DecidableEq

/-- The all-absent JSON body {}. -/
def emptyRaw : RawPayload :=
  { title := none, content := none, excerpt := none, category := none,
    status := none, featuredImage := none, metaDescription := none,
    tags := none, publishDate := none }

/-- Field validator z.string().min(1) on a required key. -/
def parseRequiredMin1 : Option Json → Option String
  | some (Json.str t) => if 1 ≤ t.length then some t else none
  | _ => none

/-- Field validator z.string().nullable().optional(). -/
def parseOptNullableStr : Option Json → Option (Option (Option String))
  | none => some none
  | some Json.null => some (some none)
  | some (Json.str s) => some (some (some s))
  | _ => none

/-- Field validator z.string().default("draft"): an absent key yields the
default, a present key must be a string. -/
def parseStatusDefault : Option Json → Option String
  | none => some "draft"
  | some (Json.str s) => some s
  | _ => none

/-- Field validator z.string().optional() as produced by .partial() applied to
a defaulted string field: an absent key stays absent (ZodOptional short-circuits
before the default), a present key must be a string. -/
def parseOptStr : Option Json → Option (Option String)
  | none => some none
  | some (Json.str s) => some (some s)
  | _ => none

/-- Field validator z.string().min(1) under .partial(): absent allowed,
a present value must still be a non-empty string. -/
def parseOptMin1 : Option Json → Option (Option String)
  | none => some none
  | some (Json.str t) => if 1 ≤ t.length then some (some t) else none
  | _ => none

/-- Field validator z.array(z.string()).nullable().optional(). -/
def parseOptNullableTags : Option Json → Option (Option (Option (List String)))
  | none => some none
  | some Json.null => some (some none)
  | some (Json.arr xs) => some (some (some xs))
  | _ => none

/-- Model of insertBlogPostSchema.parse (src/shared/schema.ts): none is a
ZodError rejection, some is the validated payload. -/
def insertBlogPostSchema (r : RawPayload) : Option InsertBlogPost := do
  let title ← parseRequiredMin1 r.title
  let content ← parseRequiredMin1 r.content
  let excerpt ← parseOptNullableStr r.excerpt
  let category ← parseOptNullableStr r.category
  let status ← parseStatusDefault r.status
  let featuredImage ← parseOptNullableStr r.featuredImage
  let metaDescription ← parseOptNullableStr r.metaDescription
  let tags ← parseOptNullableTags r.tags
  let publishDate ← parseOptNullableStr r.publishDate
  pure { title, content, excerpt, category, status, featuredImage,
         metaDescription, tags, publishDate }

/-- Model of updateBlogPostSchema.parse, i.e. insertBlogPostSchema.partial()
(src/shared/schema.ts line 191): every field optional, present fields obey the
creation-time rule. -/
def updateBlogPostSchema (r : RawPayload) : Option UpdateBlogPost := do
  let title ← parseOptMin1 r.title
  let content ← parseOptMin1 r.content
  let excerpt ← parseOptNullableStr r.excerpt
  let category ← parseOptNullableStr r.category
  let status ← parseOptStr r.status
  let featuredImage ← parseOptNullableStr r.featuredImage
  let metaDescription ← parseOptNullableStr r.metaDescription
  let tags ← parseOptNullableTags r.tags
  let publishDate ← parseOptNullableStr r.publishDate
  pure { title, content, excerpt, category, status, featuredImage,
         metaDescription, tags, publishDate }

/-- Lookup in a JavaScript Map modelled as an association list. -/
def mapGet (m : List (Nat × α)) (k : Nat) : Option α :=
  (m.find? (fun e => e.1 == k)).map (fun e => e.2)

/-- JavaScript Map.set: update in place when the key is present, append otherwise. -/
def mapSet (m : List (Nat × α)) (k : Nat) (v : α) : List (Nat × α) :=
  if m.any (fun e => e.1 == k) then
    m.map (fun e => if e.1 == k then (k, v) else e)
  else
    m ++ [(k, v)]

/-- JavaScript Map.delete: the returned boolean tells whether the key was present. -/
def mapDelete (m : List (Nat × α)) (k : Nat) : Bool × List (Nat × α) :=
  (m.any (fun e => e.1 == k), m.filter (fun e => !(e.1 == k)))

/-- JavaScript Array.from(map.values()): the values in insertion order. -/
def mapValues (m : List (Nat × α)) : List α := m.map (fun e => e.2)

/-- State of a MemStorage instance: the two Maps and the two id counters. -/
structure MemState where
  users : List (Nat × User)
  blogPosts : List (Nat × BlogPost)
  currentUserId : Nat
  currentBlogPostId : Nat
deriving DecidableEq

/-- A MemStorage state with empty maps and counters at 1 (the constructor state
before sample-data seeding). -/
def emptyMemState : MemState :=
  { users := [], blogPosts := [], currentUserId := 1, currentBlogPostId := 1 }

/-- Evaluation of x || null on a string | null | undefined value, as used by
MemStorage.createBlogPost for the optional string fields: the empty string is
falsy and also collapses to null. -/
def jsOrNullStr : Option (Option String) → Option String
  | some (some s) => if s == "" then none else some s
  | _ => none

/-- Evaluation of x || null on a tags value: arrays are always truthy
(including the empty array), so only null/undefined collapse. -/
def jsOrNullTags : Option (Option (List String)) → Option (List String)
  | some (some l) => some l
  | _ => none

/-- Evaluation of x ? dparse x : null on a publish-date string: only a
non-empty string is truthy and gets converted by new Date. -/
def jsParseDate (dparse : DateParse) : Option (Option String) → Option DateVal
  | some (some s) => if s == "" then none else some (dparse s)
  | _ => none

/-- The search predicate shared verbatim by MemStorage.searchBlogPosts
(storage.ts lines 294-300) and the GET /api/blog-posts handler (routes.ts
lines 69-75): lowercase the query once, then test substring containment in
title, content, excerpt, category, or any element of tags. -/
def postMatchesSearch (q : String) (p : BlogPost) : Bool :=
  let lq := jsToLower q
  strIncludes (jsToLower p.title) lq
  || strIncludes (jsToLower p.content) lq
  || (match p.excerpt with
      | some e => strIncludes (jsToLower e) lq
      | none => false)
  || (match p.category with
      | some c => strIncludes (jsToLower c) lq
      | none => false)
  || (match p.tags with
      | some ts => ts.any (fun t => strIncludes (jsToLower t) lq)
      | none => false)

/-- Comparator of MemStorage.getAllBlogPosts, (a, b) =>
new Date(b.createdAt).getTime() - new Date(a.createdAt).getTime(), rendered as
the Boolean relation under which a stable sort produces the same order. -/
def byCreatedDesc (a b : BlogPost) : Bool :=
  decide (b.createdAt.time ≤ a.createdAt.time)

namespace MemStorage

/-- MemStorage.getUser: Map.get by id. -/
def getUser (s : MemState) (id : Nat) : Option User := mapGet s.users id

/-- MemStorage.getUserByUsername: linear scan over the values. -/
def getUserByUsername (s : MemState) (username : String) : Option User :=
  (mapValues s.users).find? (fun u => u.username == username)

/-- MemStorage.createUser (storage.ts lines 175-187): allocate the next id,
build the user, store it; there is no username check of any kind. -/
def createUser (s : MemState) (u : InsertUser) : User × MemState :=
  let id := s.currentUserId
  let user : User := { id := id, username := u.username, password := u.password }
  (user, { s with currentUserId := id + 1, users := mapSet s.users id user })

/-- MemStorage.getAllBlogPosts (storage.ts lines 193-199): values of the map
sorted by creation time, newest first. -/
def getAllBlogPosts (s : MemState) : List BlogPost :=
  (mapValues s.blogPosts).mergeSort byCreatedDesc

/-- MemStorage.getBlogPost: Map.get by id. -/
def getBlogPost (s : MemState) (id : Nat) : Option BlogPost := mapGet s.blogPosts id

/-- MemStorage.createBlogPost (storage.ts lines 216-244). -/
def createBlogPost (dparse : DateParse) (s : MemState) (p : InsertBlogPost)
    (now : DateVal) : BlogPost × MemState :=
  let id := s.currentBlogPostId
  let post : BlogPost :=
    { id := id
      title := p.title
      content := p.content
      excerpt := jsOrNullStr p.excerpt
      category := jsOrNullStr p.category
      status := if p.status == "" then "draft" else p.status
      featuredImage := jsOrNullStr p.featuredImage
      metaDescription := jsOrNullStr p.metaDescription
      tags := jsOrNullTags p.tags
      publishDate := jsParseDate dparse p.publishDate
      createdAt := now
      updatedAt := now }
  (post, { s with currentBlogPostId := id + 1,
                  blogPosts := mapSet s.blogPosts id post })

/-- The merged record built by MemStorage.updateBlogPost: spread of the
existing post, then the supplied fields, then the guarded publishDate
conversion and the fresh updatedAt (both written after the spreads, so they
win). -/
def mergePost (dparse : DateParse) (ex : BlogPost) (u : UpdateBlogPost)
    (now : DateVal) : BlogPost :=
  { id := ex.id
    title := u.title.getD ex.title
    content := u.content.getD ex.content
    excerpt := match u.excerpt with
      | some v => v
      | none => ex.excerpt
    category := match u.category with
      | some v => v
      | none => ex.category
    status := u.status.getD ex.status
    featuredImage := match u.featuredImage with
      | some v => v
      | none => ex.featuredImage
    metaDescription := match u.metaDescription with
      | some v => v
      | none => ex.metaDescription
    tags := match u.tags with
      | some v => v
      | none => ex.tags
    publishDate := match u.publishDate with
      | some (some s) => if s == "" then ex.publishDate else some (dparse s)
      | _ => ex.publishDate
    createdAt := ex.createdAt
    updatedAt := now }

/-- MemStorage.updateBlogPost (storage.ts lines 252-272). -/
def updateBlogPost (dparse : DateParse) (s : MemState) (id : Nat)
    (u : UpdateBlogPost) (now : DateVal) : Option BlogPost × MemState :=
  match mapGet s.blogPosts id with
  | none => (none, s)
  | some ex =>
      let updated := mergePost dparse ex u now
      (some updated, { s with blogPosts := mapSet s.blogPosts id updated })

/-- MemStorage.deleteBlogPost (storage.ts lines 279-282): Map.delete. -/
def deleteBlogPost (s : MemState) (id : Nat) : Bool × MemState :=
  let r := mapDelete s.blogPosts id
  (r.1, { s with blogPosts := r.2 })

/-- MemStorage.searchBlogPosts (storage.ts lines 289-301): filter of the map
values by the shared search predicate, in map iteration order. -/
def searchBlogPosts (s : MemState) (q : String) : List BlogPost :=
  (mapValues s.blogPosts).filter (postMatchesSearch q)

/-- MemStorage.getBlogPostStats (storage.ts lines 327-352): four counts over
the map values; the monthly count compares getMonth and getFullYear of each
createdAt with the current date. -/
def getBlogPostStats (s : MemState) (now : DateVal) : BlogPostStats :=
  let posts := mapValues s.blogPosts
  { totalPosts := posts.length
    publishedPosts := (posts.filter (fun p => p.status == "published")).length
    draftPosts := (posts.filter (fun p => p.status == "draft")).length
    monthlyPosts := (posts.filter (fun p =>
      p.createdAt.month == now.month && p.createdAt.year == now.year)).length }

end MemStorage

/-- Query parameters of GET /api/blog-posts; each is absent or a string. -/
structure BlogQuery where
  search : Option String
  status : Option String
  category : Option String
deriving DecidableEq

/-- Search stage of the GET /api/blog-posts handler (routes.ts lines 59-76):
reassigns posts to the filtered list when the search parameter is truthy. -/
def searchStage (o : Option String) (l : List BlogPost) : List BlogPost :=
  match o with
  | some sq => if strTruthy sq then l.filter (postMatchesSearch sq) else l
  | none => l

/-- Status stage of the handler (routes.ts lines 80-82): filters by equality
when the status parameter is truthy and not "all". -/
def statusStage (o : Option String) (l : List BlogPost) : List BlogPost :=
  match o with
  | some st => if strTruthy st && !(st == "all") then
      l.filter (fun p => p.status == st)
    else l
  | none => l

/-- Category stage of the handler (routes.ts lines 86-88): filters by equality
when the category parameter is truthy and not "all". -/
def categoryStage (o : Option String) (l : List BlogPost) : List BlogPost :=
  match o with
  | some c => if strTruthy c && !(c == "all") then
      l.filter (fun p => p.category == some c)
    else l
  | none => l

/-- The GET /api/blog-posts handler's filter pipeline (routes.ts lines 47-92)
over a MemStorage state: fetch all posts, then apply the three stages in the
order the handler reassigns the posts variable. -/
def getBlogPostsRoute (s : MemState) (q : BlogQuery) : List BlogPost :=
  categoryStage q.category
    (statusStage q.status
      (searchStage q.search (MemStorage.getAllBlogPosts s)))

/-- Evaluation of a SQL "col LIKE CONCAT('%', q, '%')" match under MySQL's
default case-insensitive collation, for a query containing no LIKE
metacharacters; a NULL column never matches. -/
def sqlLike (col : Option String) (q : String) : Bool :=
  match col with
  | some s => strIncludes (jsToLower s) (jsToLower q)
  | none => false

namespace MySQLStorage

/-- MySQLStorage.getAllBlogPosts (storage.ts lines 507-511): SELECT ordered by
created_at DESC; one conforming row order is the stable descending sort. -/
def getAllBlogPosts (rows : List BlogPost) : List BlogPost :=
  rows.mergeSort byCreatedDesc

/-- MySQLStorage.getBlogPost: SELECT WHERE id = ? LIMIT 1. -/
def getBlogPost (rows : List BlogPost) (id : Nat) : Option BlogPost :=
  rows.find? (fun r => r.id == id)

/-- MySQLStorage.deleteBlogPost (storage.ts lines 573-579): DELETE WHERE
id = ?, returning affectedRows > 0. -/
def deleteBlogPost (rows : List BlogPost) (id : Nat) : Bool × List BlogPost :=
  let affected := (rows.filter (fun r => r.id == id)).length
  (decide (0 < affected), rows.filter (fun r => !(r.id == id)))

/-- MySQLStorage.searchBlogPosts (storage.ts lines 586-601): OR of four LIKE
conditions over title, content, excerpt and category, ordered by created_at
DESC. -/
def searchBlogPosts (rows : List BlogPost) (q : String) : List BlogPost :=
  (rows.filter (fun p =>
    sqlLike (some p.title) q || sqlLike (some p.content) q
      || sqlLike p.excerpt q || sqlLike p.category q)).mergeSort byCreatedDesc

/-- Effect of the UPDATE ... SET built by MySQLStorage.updateBlogPost
(storage.ts lines 554-566) on one row: supplied fields overwrite the columns
(null sets NULL), absent fields leave them unchanged; publishDate is converted
only when truthy and otherwise passed as undefined, which Drizzle omits from
the SET list; updated_at follows the column's ON UPDATE now() clause. -/
def applySet (dparse : DateParse) (r : BlogPost) (u : UpdateBlogPost)
    (now : DateVal) : BlogPost :=
  { id := r.id
    title := u.title.getD r.title
    content := u.content.getD r.content
    excerpt := match u.excerpt with
      | some v => v
      | none => r.excerpt
    category := match u.category with
      | some v => v
      | none => r.category
    status := u.status.getD r.status
    featuredImage := match u.featuredImage with
      | some v => v
      | none => r.featuredImage
    metaDescription := match u.metaDescription with
      | some v => v
      | none => r.metaDescription
    tags := match u.tags with
      | some v => v
      | none => r.tags
    publishDate := match u.publishDate with
      | some (some s) => if s == "" then r.publishDate else some (dparse s)
      | _ => r.publishDate
    createdAt := r.createdAt
    updatedAt := now }

/-- MySQLStorage.updateBlogPost: UPDATE the matching rows, then re-SELECT the
row by id. -/
def updateBlogPost (dparse : DateParse) (rows : List BlogPost) (id : Nat)
    (u : UpdateBlogPost) (now : DateVal) : Option BlogPost × List BlogPost :=
  let rows2 := rows.map (fun r => if r.id == id then applySet dparse r u now else r)
  (getBlogPost rows2 id, rows2)

/-- MySQLStorage.getBlogPostStats (storage.ts lines 627-657): four COUNT
queries.  The fourth query's WHERE clause is and(eq(status, "published")) —
the date-range condition is commented out in the source — so the monthly count
actually counts the published rows. -/
def getBlogPostStats (rows : List BlogPost) : BlogPostStats :=
  { totalPosts := rows.length
    publishedPosts := (rows.filter (fun p => p.status == "published")).length
    draftPosts := (rows.filter (fun p => p.status == "draft")).length
    monthlyPosts := (rows.filter (fun p => p.status == "published")).length }

end MySQLStorage

/-- Case-insensitive substring occurrence of the query q in the field s, the
comparison named by the specification ("case-insensitive substring match"). -/
def ciMatch (q s : String) : Bool := strIncludes (jsToLower s) (jsToLower q)

/-- Case-insensitive occurrence of q in a nullable field; a missing field never
matches. -/
def specOptMatch (q : String) (o : Option String) : Bool :=
  (o.map (ciMatch q)).getD false

/-- Search scope named by claim C3: q appears case-insensitively as a substring
of title, content, excerpt, or category. -/
def specSearchFourField (q : String) (p : BlogPost) : Bool :=
  ciMatch q p.title || ciMatch q p.content
    || specOptMatch q p.excerpt || specOptMatch q p.category

/-- Search over the tags array: some element contains q case-insensitively. -/
def specTagsMatch (q : String) (p : BlogPost) : Bool :=
  (p.tags.map (fun ts => ts.any (ciMatch q))).getD false

/-- Search scope named by claim C2: the four text fields or some element of
tags. -/
def specSearchFive (q : String) (p : BlogPost) : Bool :=
  specSearchFourField q p || specTagsMatch q p

/-- Claim C2 as stated: a parameter that is absent or equal to the sentinel
"all" imposes no constraint (read uniformly over all three parameters). -/
def claimC2Pred (q : BlogQuery) (p : BlogPost) : Bool :=
  (match q.search with
   | none => true
   | some v => v == "all" || specSearchFive v p) &&
  (match q.status with
   | none => true
   | some v => v == "all" || p.status == v) &&
  (match q.category with
   | none => true
   | some v => v == "all" || p.category == some v)

/-- Amended search constraint: no constraint only when the parameter is absent
or empty; the value "all" is an ordinary search string. -/
def searchOk (o : Option String) (p : BlogPost) : Bool :=
  match o with
  | none => true
  | some v => v == "" || specSearchFive v p

/-- Amended status constraint: no constraint when absent, empty, or "all". -/
def statusOk (o : Option String) (p : BlogPost) : Bool :=
  match o with
  | none => true
  | some v => v == "" || v == "all" || p.status == v

/-- Amended category constraint: no constraint when absent, empty, or "all". -/
def categoryOk (o : Option String) (p : BlogPost) : Bool :=
  match o with
  | none => true
  | some v => v == "" || v == "all" || p.category == some v

/-- Conjunction of the three amended constraints of claim C2. -/
def amendedC2Pred (q : BlogQuery) (p : BlogPost) : Bool :=
  searchOk q.search p && statusOk q.status p && categoryOk q.category p

/-- Count named by claim C1: posts whose createdAt has the same calendar year
and month as the current date. -/
def specMonthlyCount (posts : List BlogPost) (now : DateVal) : Nat :=
  (posts.filter (fun p =>
    p.createdAt.year == now.year && p.createdAt.month == now.month)).length

/-- Coercion stated by the amended claim C6: an optional string field keeps a
supplied non-empty value and is stored as null when absent, null, or empty. -/
def nonEmptyOrNull (v : Option (Option String)) : Option String :=
  v.join.bind (fun s => if s = "" then none else some s)

/-- Record predicted by the amended claim C6: the payload extended with the
generated id and the two creation timestamps, under the empty-string coercions
the amendment names. -/
def amendedCreatedPost (dparse : DateParse) (p : InsertBlogPost) (id : Nat)
    (now : DateVal) : BlogPost :=
  { id := id
    title := p.title
    content := p.content
    excerpt := nonEmptyOrNull p.excerpt
    category := nonEmptyOrNull p.category
    status := if p.status = "" then "draft" else p.status
    featuredImage := nonEmptyOrNull p.featuredImage
    metaDescription := nonEmptyOrNull p.metaDescription
    tags := p.tags.join
    publishDate := (nonEmptyOrNull p.publishDate).map dparse
    createdAt := now
    updatedAt := now }

/-- Fixed date conversion used to instantiate the abstract dparse parameter in
concrete evaluations; none of those evaluations reaches a conversion. -/
def dparse0 : DateParse := fun _ => { time := 0, year := 1970, month := 0 }

/-- December 2023 (month index 11). -/
def datDec2023 : DateVal := { time := 1702634400000, year := 2023, month := 11 }

/-- October 2026 (month index 9), used as the call-time current date. -/
def datOct2026 : DateVal := { time := 1791018000000, year := 2026, month := 9 }

/-- Published post created in December 2023. -/
def postPubDec2023 : BlogPost :=
  { id := 1, title := "Ultimate Guide", content := "Discover trails",
    excerpt := none, category := none, status := "published",
    featuredImage := none, metaDescription := none, tags := none,
    publishDate := none, createdAt := datDec2023, updatedAt := datDec2023 }

/-- Draft post created in October 2026. -/
def postDraftOct2026 : BlogPost :=
  { id := 2, title := "New Draft", content := "Fresh words",
    excerpt := none, category := none, status := "draft",
    featuredImage := none, metaDescription := none, tags := none,
    publishDate := none, createdAt := datOct2026, updatedAt := datOct2026 }

/-- Storage holding the two posts above. -/
def stateC1 : MemState :=
  { users := [], blogPosts := [(1, postPubDec2023), (2, postDraftOct2026)],
    currentUserId := 1, currentBlogPostId := 3 }

/-- Minimal post containing the substring "all" nowhere. -/
def postPlain : BlogPost :=
  { id := 1, title := "x", content := "y", excerpt := none, category := none,
    status := "draft", featuredImage := none, metaDescription := none,
    tags := none, publishDate := none, createdAt := datDec2023,
    updatedAt := datDec2023 }

/-- Storage holding only postPlain. -/
def statePlain : MemState :=
  { users := [], blogPosts := [(1, postPlain)],
    currentUserId := 1, currentBlogPostId := 2 }

/-- Post that matches the query "alps" only through its tags array. -/
def postTagged : BlogPost :=
  { id := 1, title := "Mountain Guide", content := "Snow and rocks",
    excerpt := none, category := none, status := "published",
    featuredImage := none, metaDescription := none, tags := some ["alps"],
    publishDate := none, createdAt := datDec2023, updatedAt := datDec2023 }

/-- Storage holding only postTagged. -/
def stateTagged : MemState :=
  { users := [], blogPosts := [(1, postTagged)],
    currentUserId := 1, currentBlogPostId := 2 }

/-- Post carrying a non-null publishDate. -/
def postWithDate : BlogPost :=
  { postPlain with publishDate := some datDec2023 }

/-- Storage holding only postWithDate. -/
def stateWithDate : MemState :=
  { users := [], blogPosts := [(1, postWithDate)],
    currentUserId := 1, currentBlogPostId := 2 }

/-- Partial update whose only supplied field is an explicit publishDate: null. -/
def pubNullUpdate : UpdateBlogPost :=
  { emptyUpdate with publishDate := some none }

/-- Result of applying pubNullUpdate to postWithDate at datOct2026. -/
def updatedWithDate : BlogPost :=
  { postWithDate with updatedAt := datOct2026 }

/-- Request body {"title":"t","content":"c","excerpt":""}. -/
def rawC6 : RawPayload :=
  { emptyRaw with title := some (Json.str "t"), content := some (Json.str "c"),
                  excerpt := some (Json.str "") }

/-- Parse output of insertBlogPostSchema on rawC6. -/
def pC6 : InsertBlogPost :=
  { title := "t", content := "c", excerpt := some (some ""), category := none,
    status := "draft", featuredImage := none, metaDescription := none,
    tags := none, publishDate := none }

/-- Request body {"title":"t","content":"c","status":"bogus"}. -/
def rawC5 : RawPayload :=
  { emptyRaw with title := some (Json.str "t"), content := some (Json.str "c"),
                  status := some (Json.str "bogus") }

/-- Parse output of insertBlogPostSchema on rawC5. -/
def pC5 : InsertBlogPost :=
  { title := "t", content := "c", excerpt := none, category := none,
    status := "bogus", featuredImage := none, metaDescription := none,
    tags := none, publishDate := none }

/-- Parse output of updateBlogPostSchema on rawC5. -/
def uC5 : UpdateBlogPost :=
  { title := some "t", content := some "c", excerpt := none, category := none,
    status := some "bogus", featuredImage := none, metaDescription := none,
    tags := none, publishDate := none }

/-- Presence of a match under find? coincides with any. -/
theorem find_isSome_eq_any (m : List α) (p : α → Bool) :
    (m.find? p).isSome = m.any p := by
  induction m with
  | nil => rfl
  | cons a t ih =>
      by_cases h : p a
      · simp [List.find?_cons_of_pos _ h, h]
      · simp only [List.find?_cons_of_neg _ (by simpa using h), List.any_cons, ih]
        simp [h]

/-- Filtering away the matches of p leaves a list with no match of p. -/
theorem any_filter_not (m : List α) (p : α → Bool) :
    (m.filter (fun e => !(p e))).any p = false := by
  induction m with
  | nil => rfl
  | cons a t ih =>
      by_cases h : p a <;> simp [List.filter_cons, h, ih]

/-- Positivity of a filter's length coincides with any. -/
theorem filter_length_pos_eq_any (l : List α) (p : α → Bool) :
    decide (0 < (l.filter p).length) = l.any p := by
  induction l with
  | nil => rfl
  | cons a t ih =>
      by_cases h : p a <;> simp [List.filter_cons, h, ih]

/-- Filtering by p after filtering by its negation yields nothing. -/
theorem filter_after_filter_not (l : List α) (p : α → Bool) :
    (l.filter (fun a => !(p a))).filter p = [] := by
  induction l with
  | nil => rfl
  | cons a t ih =>
      by_cases h : p a <;> simp [List.filter_cons, h, ih]

/-- Map.get on a cons whose head key matches. -/
theorem mapGet_cons_of_pos (a : Nat × α) (t : List (Nat × α)) (k : Nat)
    (h : (a.1 == k) = true) : mapGet (a :: t) k = some a.2 := by
  simp [mapGet, List.find?_cons, h]

/-- Map.get on a cons whose head key differs. -/
theorem mapGet_cons_of_neg (a : Nat × α) (t : List (Nat × α)) (k : Nat)
    (h : (a.1 == k) = false) : mapGet (a :: t) k = mapGet t k := by
  simp [mapGet, List.find?_cons, h]

/-- Map.get after an in-place replacement of the entry at a present key. -/
theorem mapGet_replace (m : List (Nat × α)) (k : Nat) (v : α)
    (h : m.any (fun e => e.1 == k) = true) :
    mapGet (m.map (fun e => if e.1 == k then (k, v) else e)) k = some v := by
  induction m with
  | nil => simp at h
  | cons a t ih =>
      simp only [List.map_cons]
      cases hb : (a.1 == k) with
      | true =>
          rw [if_pos rfl]
          exact mapGet_cons_of_pos _ _ _ (by simp)
      | false =>
          rw [List.any_cons, hb, Bool.false_or] at h
          rw [if_neg (by simp), mapGet_cons_of_neg _ _ _ hb]
          exact ih h

/-- Map.get after appending an entry at a key that was absent. -/
theorem mapGet_append_fresh (m : List (Nat × α)) (k : Nat) (v : α)
    (h : m.any (fun e => e.1 == k) = false) :
    mapGet (m ++ [(k, v)]) k = some v := by
  induction m with
  | nil =>
      rw [List.nil_append]
      exact mapGet_cons_of_pos _ _ _ (by simp)
  | cons a t ih =>
      cases hb : (a.1 == k) with
      | true =>
          rw [List.any_cons, hb] at h
          simp at h
      | false =>
          rw [List.any_cons, hb, Bool.false_or] at h
          rw [List.cons_append, mapGet_cons_of_neg _ _ _ hb]
          exact ih h

/-- Map.get after Map.set at the same key returns the stored value. -/
theorem mapGet_mapSet_self (m : List (Nat × α)) (k : Nat) (v : α) :
    mapGet (mapSet m k v) k = some v := by
  unfold mapSet
  cases hb : m.any (fun e => e.1 == k) with
  | true =>
      rw [if_pos rfl]
      exact mapGet_replace m k v hb
  | false =>
      rw [if_neg (by simp)]
      exact mapGet_append_fresh m k v hb

/-- Code-side search predicate agrees with the claim-side decomposition into
the four text fields plus the tags array. -/
theorem postMatchesSearch_eq (q : String) (p : BlogPost) :
    postMatchesSearch q p = specSearchFive q p := by
  unfold postMatchesSearch specSearchFive specSearchFourField specTagsMatch
    specOptMatch ciMatch
  cases p.excerpt <;> cases p.category <;> cases p.tags <;>
    simp [Bool.or_assoc]

/-- The search stage of the route pipeline equals a filter by the search
constraint. -/
theorem search_step (l : List BlogPost) (o : Option String) :
    searchStage o l = l.filter (fun p => searchOk o p) := by
  unfold searchStage
  cases o with
  | none => exact (List.filter_true l).symm
  | some v =>
      by_cases hv : v = ""
      · subst hv
        simp [strTruthy, searchOk, List.filter_true]
      · show (if strTruthy v then l.filter (postMatchesSearch v) else l) =
          l.filter (fun p => searchOk (some v) p)
        have hc : strTruthy v = true := by simp [strTruthy, hv]
        rw [hc, if_pos rfl]
        apply List.filter_congr
        intro p hp
        simp [searchOk, hv, postMatchesSearch_eq]

/-- The status stage of the route pipeline equals a filter by the status
constraint. -/
theorem status_step (l : List BlogPost) (o : Option String) :
    statusStage o l = l.filter (fun p => statusOk o p) := by
  unfold statusStage
  cases o with
  | none => exact (List.filter_true l).symm
  | some v =>
      by_cases hv : v = ""
      · subst hv
        simp [strTruthy, statusOk, List.filter_true]
      · by_cases hall : v = "all"
        · subst hall
          simp [strTruthy, statusOk, List.filter_true]
        · show (if strTruthy v && !(v == "all") then
              l.filter (fun p => p.status == v) else l) =
            l.filter (fun p => statusOk (some v) p)
          have hc : (strTruthy v && !(v == "all")) = true := by
            simp [strTruthy, hv, hall]
          rw [hc, if_pos rfl]
          apply List.filter_congr
          intro p hp
          simp [statusOk, hv, hall]

/-- The category stage of the route pipeline equals a filter by the category
constraint. -/
theorem category_step (l : List BlogPost) (o : Option String) :
    categoryStage o l = l.filter (fun p => categoryOk o p) := by
  unfold categoryStage
  cases o with
  | none => exact (List.filter_true l).symm
  | some v =>
      by_cases hv : v = ""
      · subst hv
        simp [strTruthy, categoryOk, List.filter_true]
      · by_cases hall : v = "all"
        · subst hall
          simp [strTruthy, categoryOk, List.filter_true]
        · show (if strTruthy v && !(v == "all") then
              l.filter (fun p => p.category == some v) else l) =
            l.filter (fun p => categoryOk (some v) p)
          have hc : (strTruthy v && !(v == "all")) = true := by
            simp [strTruthy, hv, hall]
          rw [hc, if_pos rfl]
          apply List.filter_congr
          intro p hp
          simp [categoryOk, hv, hall]

/-- The comparator of the createdAt-descending sort is transitive. -/
theorem byCreatedDesc_trans (a b c : BlogPost)
    (hab : byCreatedDesc a b) (hbc : byCreatedDesc b c) : byCreatedDesc a c := by
  simp [byCreatedDesc] at *
  omega

/-- The comparator of the createdAt-descending sort is total. -/
theorem byCreatedDesc_total (a b : BlogPost) :
    byCreatedDesc a b || byCreatedDesc b a := by
  simp [byCreatedDesc]
  omega

/-- The four LIKE conditions of MySQLStorage.searchBlogPosts coincide with the
claim-side four-field predicate. -/
theorem sqlLike_eq_spec (q : String) (p : BlogPost) :
    (sqlLike (some p.title) q || sqlLike (some p.content) q
      || sqlLike p.excerpt q || sqlLike p.category q) = specSearchFourField q p := by
  unfold sqlLike specSearchFourField specOptMatch ciMatch
  cases p.excerpt <;> cases p.category <;> simp

/-- The code-side x || null coercion coincides with the amended claim's
description of it. -/
theorem jsOrNullStr_eq (v : Option (Option String)) :
    jsOrNullStr v = nonEmptyOrNull v := by
  rcases v with _ | v
  · rfl
  · rcases v with _ | s
    · rfl
    · by_cases h : s = "" <;> simp [jsOrNullStr, nonEmptyOrNull, h]

/-- The code-side tags coercion flattens null and undefined into null. -/
theorem jsOrNullTags_eq (v : Option (Option (List String))) :
    jsOrNullTags v = v.join := by
  rcases v with _ | v
  · rfl
  · rcases v with _ | l <;> rfl

/-- The code-side guarded date conversion coincides with the amended claim's
description of it. -/
theorem jsParseDate_eq (dparse : DateParse) (v : Option (Option String)) :
    jsParseDate dparse v = (nonEmptyOrNull v).map dparse := by
  rcases v with _ | v
  · rfl
  · rcases v with _ | s
    · rfl
    · by_cases h : s = "" <;> simp [jsParseDate, nonEmptyOrNull, h]

/-- A successful insert validation determines the status field through the
defaulted status validator. -/
theorem insertParse_status (r : RawPayload) (p : InsertBlogPost)
    (h : insertBlogPostSchema r = some p) :
    parseStatusDefault r.status = some p.status := by
  simp only [insertBlogPostSchema, Option.pure_def, Option.bind_eq_bind,
    Option.bind_eq_some, Option.some.injEq] at h
  obtain ⟨t, ht, c, hc, e, he, cat, hcat, st, hst, fi, hfi, md, hmd, tg, htg,
    pd, hpd, hp⟩ := h
  rw [← hp]
  exact hst

/-- Claim C1 (code bug evidence): the MySQL backend's getBlogPostStats counts
monthlyPosts as the posts with status "published" — its WHERE clause lost the
date-range condition — so a published post from December 2023 is counted as
monthly in October 2026 while a draft created in October 2026 is not, and both
disagree with the calendar-month count the claim states; the in-memory backend
computes the claimed counts. -/
theorem C1_mysql_monthly_counts_published :
    MySQLStorage.getBlogPostStats [postPubDec2023] =
      { totalPosts := 1, publishedPosts := 1, draftPosts := 0, monthlyPosts := 1 } ∧
    specMonthlyCount [postPubDec2023] datOct2026 = 0 ∧
    MySQLStorage.getBlogPostStats [postDraftOct2026] =
      { totalPosts := 1, publishedPosts := 0, draftPosts := 1, monthlyPosts := 0 } ∧
    specMonthlyCount [postDraftOct2026] datOct2026 = 1 ∧
    MemStorage.getBlogPostStats stateC1 datOct2026 =
      { totalPosts := 2, publishedPosts := 1, draftPosts := 1, monthlyPosts := 1 } := by
  decide

/-- Claim C4 (code bug evidence): MemStorage.createUser performs no username
check, so creating "alice" twice succeeds both times and leaves two stored
users with the same username instead of failing with a uniqueness signal. -/
theorem C4_createUser_duplicate_username :
    (MemStorage.createUser
      (MemStorage.createUser emptyMemState
        { username := "alice", password := "pw1" }).2
      { username := "alice", password := "pw2" }).1 =
      { id := 2, username := "alice", password := "pw2" } ∧
    ((mapValues (MemStorage.createUser
      (MemStorage.createUser emptyMemState
        { username := "alice", password := "pw1" }).2
      { username := "alice", password := "pw2" }).2.users).filter
        (fun u => u.username == "alice")).length = 2 := by
  decide

/-- Claim C5 (code bug evidence): both validators type status as z.string()
with no enumeration, so the payload with status "bogus" — outside
draft/published/scheduled — passes insertBlogPostSchema and
updateBlogPostSchema and is persisted verbatim by createBlogPost. -/
theorem C5_status_any_string_accepted :
    insertBlogPostSchema rawC5 = some pC5 ∧
    updateBlogPostSchema rawC5 = some uC5 ∧
    pC5.status = "bogus" ∧
    ¬ (pC5.status = "draft" ∨ pC5.status = "published" ∨ pC5.status = "scheduled") ∧
    ((MemStorage.createBlogPost dparse0 emptyMemState pC5 datOct2026).1).status
      = "bogus" := by
  decide

/-- Claim C2 counterexample: with the single stored post postPlain (which
contains the substring "all" nowhere) and the query string search=all, the
route returns the empty list, while the claim as stated — the sentinel "all"
imposing no constraint — predicts exactly [postPlain]. -/
theorem C2_counterexample :
    getBlogPostsRoute statePlain
      { search := some "all", status := none, category := none } = [] ∧
    (MemStorage.getAllBlogPosts statePlain).filter
      (claimC2Pred { search := some "all", status := none, category := none })
      = [postPlain] := by
  have h : MemStorage.getAllBlogPosts statePlain = [postPlain] := by
    simp [MemStorage.getAllBlogPosts, mapValues, statePlain]
  refine ⟨?_, ?_⟩
  · simp only [getBlogPostsRoute, h]
    decide
  · rw [h]
    decide

/-- Claim C3 counterexample: searchBlogPosts on the in-memory backend returns
postTagged for the query "alps" although "alps" occurs in none of title,
content, excerpt, category — only in the tags array — so the backend does not
return exactly the posts matching the claim's four fields. -/
theorem C3_counterexample :
    MemStorage.searchBlogPosts stateTagged "alps" = [postTagged] ∧
    specSearchFourField "alps" postTagged = false := by
  decide

/-- Claim C6 counterexample: the valid payload rawC6 supplies excerpt as the
empty string, yet the record created from its parse pC6 stores excerpt null,
so create-then-get does not return the payload extended with id and
timestamps. -/
theorem C6_counterexample :
    insertBlogPostSchema rawC6 = some pC6 ∧
    pC6.excerpt = some (some "") ∧
    ((MemStorage.createBlogPost dparse0 emptyMemState pC6 datOct2026).1).excerpt
      = none := by
  decide

/-- Presence under Map.get coincides with any over the entries. -/
theorem mapGet_isSome_eq_any (m : List (Nat × α)) (k : Nat) :
    (mapGet m k).isSome = m.any (fun e => e.1 == k) := by
  unfold mapGet
  rw [Option.isSome_map']
  exact find_isSome_eq_any _ _

/-- If st is both boolean and propositional comparison with the empty string,
the two renderings of the status default agree. -/
theorem statusDefault_eq (st : String) :
    (if st == "" then "draft" else st) = (if st = "" then "draft" else st) := by
  by_cases h : st = "" <;> simp [h]

/-- A row found by id is transformed in place by an id-preserving per-row
update, and is found again after the UPDATE. -/
theorem find_map_update (rows : List BlogPost) (k : Nat) (g : BlogPost → BlogPost)
    (hg : ∀ r, (g r).id = r.id) (ex : BlogPost)
    (h : rows.find? (fun r => r.id == k) = some ex) :
    (rows.map (fun r => if r.id == k then g r else r)).find? (fun r => r.id == k)
      = some (g ex) := by
  induction rows with
  | nil => simp at h
  | cons a t ih =>
      simp only [List.map_cons]
      by_cases hb : (a.id == k) = true
      · rw [List.find?_cons_of_pos (p := fun r : BlogPost => r.id == k) _ hb] at h
        have ha : a = ex := Option.some.inj h
        subst ha
        rw [if_pos hb]
        refine List.find?_cons_of_pos (p := fun r : BlogPost => r.id == k) _ ?_
        show ((g a).id == k) = true
        rw [hg a]
        exact hb
      · rw [List.find?_cons_of_neg (p := fun r : BlogPost => r.id == k) _ hb] at h
        rw [if_neg hb]
        rw [List.find?_cons_of_neg (p := fun r : BlogPost => r.id == k) _ hb]
        exact ih h

/-- Claim C2 (amended): GET /api/blog-posts returns exactly the posts
satisfying the conjunction of the three filters, where status and category
impose no constraint when absent, empty, or equal to the sentinel "all", and
search imposes no constraint only when absent or empty — a search value of
"all" is an ordinary search string.  The search constraint matches title,
content, excerpt, category, or some element of tags, case-insensitively. -/
theorem C2_route_filters_conjunction (s : MemState) (q : BlogQuery) :
    getBlogPostsRoute s q =
      (MemStorage.getAllBlogPosts s).filter (amendedC2Pred q) := by
  unfold getBlogPostsRoute
  rw [search_step, status_step, category_step, List.filter_filter,
      List.filter_filter]
  apply List.filter_congr
  intro p hp
  unfold amendedC2Pred
  cases h1 : searchOk q.search p <;> cases h2 : statusOk q.status p <;>
    cases h3 : categoryOk q.category p <;> simp

/-- Claim C3 (amended): searchBlogPosts on the in-memory backend returns
exactly those stored posts in which the query appears case-insensitively as a
substring of title, content, excerpt, category, or some element of tags; the
MySQL backend returns exactly those matching in title, content, excerpt, or
category, ordered by createdAt descending. -/
theorem C3_search_scope (s : MemState) (rows : List BlogPost) (q : String) :
    MemStorage.searchBlogPosts s q =
      (mapValues s.blogPosts).filter
        (fun p => specSearchFourField q p || specTagsMatch q p) ∧
    MySQLStorage.searchBlogPosts rows q =
      (rows.filter (fun p => specSearchFourField q p)).mergeSort byCreatedDesc := by
  constructor
  · unfold MemStorage.searchBlogPosts
    apply List.filter_congr
    intro p hp
    exact postMatchesSearch_eq q p
  · unfold MySQLStorage.searchBlogPosts
    congr 1
    apply List.filter_congr
    intro p hp
    exact sqlLike_eq_spec q p

/-- Claim C9: for every storage state — hence after any sequence of create,
update, and delete operations — getAllBlogPosts returns a permutation of the
stored posts that is sorted by createdAt descending, on both backends. -/
theorem C9_getAllBlogPosts_sorted (s : MemState) (rows : List BlogPost) :
    List.Perm (MemStorage.getAllBlogPosts s) (mapValues s.blogPosts) ∧
    (MemStorage.getAllBlogPosts s).Pairwise
      (fun a b => b.createdAt.time ≤ a.createdAt.time) ∧
    List.Perm (MySQLStorage.getAllBlogPosts rows) rows ∧
    (MySQLStorage.getAllBlogPosts rows).Pairwise
      (fun a b => b.createdAt.time ≤ a.createdAt.time) := by
  refine ⟨List.mergeSort_perm _ _, ?_, List.mergeSort_perm _ _, ?_⟩
  · exact (List.sorted_mergeSort byCreatedDesc_trans byCreatedDesc_total
      (mapValues s.blogPosts)).imp (fun hab => of_decide_eq_true hab)
  · exact (List.sorted_mergeSort byCreatedDesc_trans byCreatedDesc_total
      rows).imp (fun hab => of_decide_eq_true hab)

/-- Claim C6 (amended): for every valid create payload, createBlogPost
followed by getBlogPost on the returned id yields exactly the stored record;
that record is the payload extended with the generated id and
createdAt = updatedAt = creation time, except that optional string fields
supplied as the empty string are stored as null, an empty status is stored as
"draft", an empty or missing publishDate is stored as null and a non-empty one
as its parsed date; status defaults to "draft" when the request body omits
it. -/
theorem C6_create_get_roundtrip (dparse : DateParse) (raw : RawPayload)
    (p : InsertBlogPost) (s : MemState) (now : DateVal)
    (h : insertBlogPostSchema raw = some p) :
    MemStorage.getBlogPost (MemStorage.createBlogPost dparse s p now).2
        ((MemStorage.createBlogPost dparse s p now).1).id =
      some ((MemStorage.createBlogPost dparse s p now).1) ∧
    (MemStorage.createBlogPost dparse s p now).1 =
      amendedCreatedPost dparse p s.currentBlogPostId now ∧
    ((MemStorage.createBlogPost dparse s p now).1).createdAt = now ∧
    ((MemStorage.createBlogPost dparse s p now).1).updatedAt = now ∧
    (raw.status = none →
      ((MemStorage.createBlogPost dparse s p now).1).status = "draft") := by
  refine ⟨?_, ?_, rfl, rfl, ?_⟩
  · show mapGet (mapSet s.blogPosts s.currentBlogPostId _) s.currentBlogPostId
      = some _
    exact mapGet_mapSet_self _ _ _
  · show ({ id := s.currentBlogPostId
            title := p.title
            content := p.content
            excerpt := jsOrNullStr p.excerpt
            category := jsOrNullStr p.category
            status := if p.status == "" then "draft" else p.status
            featuredImage := jsOrNullStr p.featuredImage
            metaDescription := jsOrNullStr p.metaDescription
            tags := jsOrNullTags p.tags
            publishDate := jsParseDate dparse p.publishDate
            createdAt := now
            updatedAt := now } : BlogPost) =
      amendedCreatedPost dparse p s.currentBlogPostId now
    unfold amendedCreatedPost
    rw [jsOrNullStr_eq, jsOrNullStr_eq, jsOrNullStr_eq, jsOrNullStr_eq,
        jsOrNullTags_eq, jsParseDate_eq, statusDefault_eq]
  · intro hst
    have h2 := insertParse_status raw p h
    rw [hst] at h2
    have h3 : "draft" = p.status := Option.some.inj h2
    show (if p.status == "" then "draft" else p.status) = "draft"
    rw [← h3]
    rfl

/-- Witness for C6 at the concrete payload rawC6. -/
theorem C6_witness :
    insertBlogPostSchema rawC6 = some pC6 ∧
    (MemStorage.createBlogPost dparse0 emptyMemState pC6 datOct2026).1 =
      amendedCreatedPost dparse0 pC6 1 datOct2026 :=
  ⟨by decide,
   (C6_create_get_roundtrip dparse0 rawC6 pC6 emptyMemState datOct2026
     (by decide)).2.1⟩

/-- Claim C7: updateBlogPost on a missing id reports "not found" and leaves
the state unchanged; on an existing post, the empty partial changes only
updatedAt, and in general every field not supplied in the partial retains its
prior value while updatedAt is set to the update time. -/
theorem C7_update_frame (dparse : DateParse) (s : MemState) (id : Nat)
    (u : UpdateBlogPost) (now : DateVal) :
    (MemStorage.getBlogPost s id = none →
      MemStorage.updateBlogPost dparse s id u now = (none, s)) ∧
    (∀ ex : BlogPost, MemStorage.getBlogPost s id = some ex →
      (MemStorage.updateBlogPost dparse s id emptyUpdate now).1 =
        some { ex with updatedAt := now } ∧
      ∀ r : BlogPost, (MemStorage.updateBlogPost dparse s id u now).1 = some r →
        r.id = ex.id ∧ r.createdAt = ex.createdAt ∧ r.updatedAt = now ∧
        (u.title = none → r.title = ex.title) ∧
        (u.content = none → r.content = ex.content) ∧
        (u.excerpt = none → r.excerpt = ex.excerpt) ∧
        (u.category = none → r.category = ex.category) ∧
        (u.status = none → r.status = ex.status) ∧
        (u.featuredImage = none → r.featuredImage = ex.featuredImage) ∧
        (u.metaDescription = none → r.metaDescription = ex.metaDescription) ∧
        (u.tags = none → r.tags = ex.tags) ∧
        (u.publishDate = none → r.publishDate = ex.publishDate)) := by
  unfold MemStorage.getBlogPost
  constructor
  · intro h
    unfold MemStorage.updateBlogPost
    rw [h]
  · intro ex h
    constructor
    · unfold MemStorage.updateBlogPost
      rw [h]
      rfl
    · intro r hr
      unfold MemStorage.updateBlogPost at hr
      rw [h] at hr
      have hr2 : MemStorage.mergePost dparse ex u now = r := Option.some.inj hr
      subst hr2
      refine ⟨rfl, rfl, rfl, ?_, ?_, ?_, ?_, ?_, ?_, ?_, ?_, ?_⟩ <;>
        · intro h0
          simp [MemStorage.mergePost, h0]

/-- Witness for C7 at the concrete state statePlain. -/
theorem C7_witness :
    (MemStorage.updateBlogPost dparse0 statePlain 1 emptyUpdate datOct2026).1 =
      some { postPlain with updatedAt := datOct2026 } :=
  ((C7_update_frame dparse0 statePlain 1 emptyUpdate datOct2026).2 postPlain
    (by decide)).1

/-- Claim C8: on both backends deleteBlogPost returns true exactly when a
record with the id existed immediately before the call, and a second delete
of the same id returns false. -/
theorem C8_delete_idempotence (s : MemState) (id : Nat) (rows : List BlogPost) :
    (MemStorage.deleteBlogPost s id).1 = (MemStorage.getBlogPost s id).isSome ∧
    (MemStorage.deleteBlogPost (MemStorage.deleteBlogPost s id).2 id).1 = false ∧
    (MySQLStorage.deleteBlogPost rows id).1 =
      (MySQLStorage.getBlogPost rows id).isSome ∧
    (MySQLStorage.deleteBlogPost (MySQLStorage.deleteBlogPost rows id).2 id).1
      = false := by
  refine ⟨?_, ?_, ?_, ?_⟩
  · show (s.blogPosts.any fun e => e.1 == id) = (mapGet s.blogPosts id).isSome
    rw [mapGet_isSome_eq_any]
  · show ((s.blogPosts.filter fun e => !(e.1 == id)).any fun e => e.1 == id)
      = false
    exact any_filter_not _ _
  · show decide (0 < (rows.filter fun r => r.id == id).length)
      = (rows.find? fun r => r.id == id).isSome
    rw [filter_length_pos_eq_any, find_isSome_eq_any]
  · show decide
      (0 < (((rows.filter fun r => !(r.id == id)).filter
        fun r => r.id == id)).length) = false
    rw [show ((rows.filter fun r => !(r.id == id)).filter fun r => r.id == id)
          = [] from filter_after_filter_not rows (fun r => r.id == id)]
    rfl

/-- Claim C10: on both backends, an update that explicitly supplies
publishDate: null leaves the stored publishDate at its prior value — the
field can never be cleared back to null through updateBlogPost. -/
theorem C10_publishDate_never_cleared (dparse : DateParse) (s : MemState)
    (id : Nat) (u : UpdateBlogPost) (now : DateVal) (rows : List BlogPost) :
    (∀ ex r : BlogPost, MemStorage.getBlogPost s id = some ex →
      (MemStorage.updateBlogPost dparse s id u now).1 = some r →
      u.publishDate = some none → r.publishDate = ex.publishDate) ∧
    (∀ ex r : BlogPost, MySQLStorage.getBlogPost rows id = some ex →
      (MySQLStorage.updateBlogPost dparse rows id u now).1 = some r →
      u.publishDate = some none → r.publishDate = ex.publishDate) := by
  constructor
  · intro ex r hex hr hp
    unfold MemStorage.getBlogPost at hex
    unfold MemStorage.updateBlogPost at hr
    rw [hex] at hr
    have hr2 : MemStorage.mergePost dparse ex u now = r := Option.some.inj hr
    subst hr2
    simp [MemStorage.mergePost, hp]
  · intro ex r hex hr hp
    unfold MySQLStorage.getBlogPost at hex
    have hr2 : (rows.map (fun r0 =>
        if r0.id == id then MySQLStorage.applySet dparse r0 u now else r0)).find?
        (fun r0 => r0.id == id) = some r := hr
    rw [find_map_update rows id
      (fun r0 => MySQLStorage.applySet dparse r0 u now) (fun r0 => rfl) ex hex]
      at hr2
    have hr3 : MySQLStorage.applySet dparse ex u now = r := Option.some.inj hr2
    subst hr3
    simp [MySQLStorage.applySet, hp]

/-- Witness for C10 at a concrete post holding a non-null publishDate. -/
theorem C10_witness :
    (MemStorage.updateBlogPost dparse0 stateWithDate 1 pubNullUpdate
      datOct2026).1 = some updatedWithDate ∧
    updatedWithDate.publishDate = some datDec2023 :=
  ⟨by decide,
   ((C10_publishDate_never_cleared dparse0 stateWithDate 1 pubNullUpdate
       datOct2026 []).1 postWithDate updatedWithDate (by decide) (by decide)
     rfl).trans (by decide)⟩
